import Mathlib

/-
Shallow embedding of the Snowflake-Cortex-Slack-Integration repository
(src/cortex_slack_bot/config.py, snowflake_client.py, handlers.py).

Modelling conventions:
  - JSON payloads (the agent request and response bodies) are `JsonValue`
    trees, mirroring the decoded Python objects.
  - Python string operations that Lean defines by well-founded recursion
    are mirrored by list-of-characters definitions (`pyStrip` for
    `str.strip()`, `pySlice` for `text[:n]` slicing); both agree with the
    Python semantics on code points.
  - Effectful steps (the warehouse connection, the JWT-generating SQL
    statement, the HTTPS round trip) are passed in explicitly: a
    `WarehouseEnv` carries the outcome of `snowflake.connector.connect`
    and of the `SELECT SYSTEM$GENERATE_JWT_TOKEN()` row fetch, and an
    `HttpOutcome` carries the outcome of the `httpx` POST.  The functions
    return the updated client state and the outbound request (if one was
    built), so theorems can talk about what was sent.
  - Python exceptions are modelled as `Except`/`Option` failure values;
    exception message strings that the claims do not inspect are
    abbreviated (noted at each definition).
-/

/-- JSON values as decoded by the Python json layer; used to model the
request and response bodies of the agent HTTP call. -/
inductive JsonValue where
  | str : String → JsonValue
  | num : Int → JsonValue
  | bool : Bool → JsonValue
  | null : JsonValue
  | arr : List JsonValue → JsonValue
  | obj : List (String × JsonValue) → JsonValue
deriving Repr

/-- Dictionary lookup on the key-value list of a JSON object, mirroring
Python `dict.get` (returns `none` when the key is absent). -/
def JsonValue.lookup? : List (String × JsonValue) → String → Option JsonValue
  | [], _ => none
  | (k, v) :: rest, key => if k = key then some v else JsonValue.lookup? rest key

/-- Test whether a JSON value is the given string, mirroring a Python
`== "literal"` comparison (any non-string value compares unequal). -/
def JsonValue.isStr : JsonValue → String → Bool
  | .str t, s => t = s
  | _, _ => false

/-- Membership of a key in a JSON object body (used to state which fields
an outbound request body carries). -/
def bodyHasKey (body : JsonValue) (key : String) : Bool :=
  match body with
  | .obj kvs => (JsonValue.lookup? kvs key).isSome
  | _ => false

/-- Python `str.strip()` on ASCII whitespace, modelled over the code-point
list of the string (the Lean `String.trim` is defined by well-founded
recursion over byte positions and is semantically the same trim). -/
def pyStrip (s : String) : String :=
  String.mk (((s.data.dropWhile Char.isWhitespace).reverse.dropWhile Char.isWhitespace).reverse)

/-- Python prefix slicing `text[:n]` over code points, semantically the
same operation as the Lean `String.take`. -/
def pySlice (s : String) (n : Nat) : String :=
  String.mk (s.data.take n)

/-- Warehouse settings (config.py `SnowflakeSettings`): account, user,
password, personal access token, warehouse, database and schema (the
schema defaults to PUBLIC at load time; here it is an ordinary field). -/
structure SnowflakeSettings where
  account : String
  user : String
  password : String
  pat : String
  warehouse : String
  database : String
  schema_ : String
deriving Repr, DecidableEq

/-- Derived base URL (config.py): the account with underscores replaced by
hyphens embedded in the snowflakecomputing.com host. -/
def SnowflakeSettings.base_url (s : SnowflakeSettings) : String :=
  "https://" ++ (s.account.replace "_" "-") ++ ".snowflakecomputing.com"

/-- Agent settings (config.py `CortexSettings`). -/
structure CortexSettings where
  agent_name : String
deriving Repr, DecidableEq

/-- Outcome of one question (snowflake_client.py `QueryResult`).  Fields
follow the dataclass annotations; `data` rows are kept as raw JSON values
because the parser stores whatever the payload carried. -/
structure QueryResult where
  answer : String
  sql : Option String
  data : List JsonValue
  error : Option String
deriving Repr

/-- Derived success flag (snowflake_client.py): error is None. -/
def QueryResult.success (r : QueryResult) : Bool :=
  r.error.isNone

/-- A warehouse connection handle; `closed` mirrors `is_closed()`. -/
structure Conn where
  id : Nat
  closed : Bool
deriving Repr, DecidableEq

/-- Client state (snowflake_client.py `CortexClient.__init__`): the two
settings groups plus the lazily created connection and cached token. -/
structure CortexClient where
  snowflake_settings : SnowflakeSettings
  cortex_settings : CortexSettings
  _connection : Option Conn
  _session_token : Option String
deriving Repr, DecidableEq

/-- External warehouse behaviour for one call: the connection that
`snowflake.connector.connect` would return (or the text of the raised error),
and the row returned by `cursor.fetchone()` after executing
SELECT SYSTEM$GENERATE_JWT_TOKEN() (`none` models an empty fetch). -/
structure WarehouseEnv where
  connectResult : Except String Conn
  jwtRow : Option String

/-- Lazy connection access (snowflake_client.py `_get_connection`): reuse
the handle unless it is absent or closed, else reconnect and clear the
cached token.  A connect failure leaves the state unchanged and
propagates the error. -/
def CortexClient._get_connection (c : CortexClient) (env : WarehouseEnv) :
    Except String Conn × CortexClient :=
  match c._connection with
  | some conn =>
    if conn.closed then
      match env.connectResult with
      | .ok newc =>
        (.ok newc, CortexClient.mk c.snowflake_settings c.cortex_settings (some newc) none)
      | .error e => (.error e, c)
    else (.ok conn, c)
  | none =>
    match env.connectResult with
    | .ok newc =>
      (.ok newc, CortexClient.mk c.snowflake_settings c.cortex_settings (some newc) none)
    | .error e => (.error e, c)

/-- Session token access (snowflake_client.py `_get_session_token`):
return the cached token, else obtain a connection, run the
JWT-generating statement and cache the fetched row; an empty fetch raises
RuntimeError with the message recorded below. -/
def CortexClient._get_session_token (c : CortexClient) (env : WarehouseEnv) :
    Except String String × CortexClient :=
  match c._session_token with
  | some t => (.ok t, c)
  | none =>
    match c._get_connection env with
    | (.error e, c2) => (.error e, c2)
    | (.ok _, c2) =>
      match env.jwtRow with
      | some tok =>
        (.ok tok,
         CortexClient.mk c2.snowflake_settings c2.cortex_settings c2._connection (some tok))
      | none => (.error "Failed to generate session token", c2)

/-- Agent URL construction (snowflake_client.py `_build_agent_url`). -/
def CortexClient._build_agent_url (c : CortexClient) : String :=
  c.snowflake_settings.base_url ++ "/api/v2/databases/" ++ c.snowflake_settings.database ++
    "/schemas/" ++ c.snowflake_settings.schema_ ++ "/agents/" ++
    c.cortex_settings.agent_name ++ ":run"

/-- The single user turn appended to the message list
(snowflake_client.py `query`). -/
def userMessage (question : String) : JsonValue :=
  .obj [("role", .str "user"),
        ("content", .arr [.obj [("type", .str "text"), ("text", .str question)]])]

/-- The request body built by snowflake_client.py `query`: thread_id,
parent_message_id "0" and the single-turn message list.  Note that it
carries no "stream" key and no history. -/
def request_body (thread_id question : String) : JsonValue :=
  .obj [("thread_id", .str thread_id),
        ("parent_message_id", .str "0"),
        ("messages", .arr [userMessage question])]

/-- Modelled from the spec: the request body that spec section 6 describes
for the agent call, namely a "messages" list of the optional history
followed by the user turn, plus "stream": false and no thread identifier.
Declared only to be compared against `request_body`, which is the body the
source actually builds. -/
def spec_request_body (history : List JsonValue) (question : String) : JsonValue :=
  .obj [("messages", .arr (history ++ [userMessage question])),
        ("stream", .bool false)]

/-- Accumulator of the response-parsing loop (snowflake_client.py
`_parse_response`): collected text parts, and the last analyst tool
result sql and data (each analyst result overwrites both). -/
structure ParseAcc where
  answer_parts : List String
  sql_query : Option String
  data : List JsonValue
deriving Repr

/-- One tool result (snowflake_client.py `_parse_response` inner loop): an
analyst result replaces the accumulated sql (absent or null key gives
None) and data.  `none` models a raised exception for a non-object result
or content value; a non-string non-null sql value or a non-array data
value would be stored untyped by Python against the dataclass field
types, which this typed model keeps outside its domain by mapping them to
the failure branch as well (no claim exercises such payloads). -/
def processToolResult (acc : ParseAcc) (result : JsonValue) : Option ParseAcc :=
  match result with
  | .obj kvs =>
    if ((JsonValue.lookup? kvs "tool_name").getD .null).isStr "analyst" then
      match (JsonValue.lookup? kvs "content").getD (.obj []) with
      | .obj ckvs =>
        match
          (match JsonValue.lookup? ckvs "sql" with
           | none => some none
           | some .null => some none
           | some (.str s) => some (some s)
           | some _ => none : Option (Option String)) with
        | none => none
        | some sqlValue =>
          match (JsonValue.lookup? ckvs "data").getD (.arr []) with
          | .arr d => some (ParseAcc.mk acc.answer_parts sqlValue d)
          | _ => none
      | _ => none
    else some acc
  | _ => none

/-- One content item (snowflake_client.py `_parse_response`): a text item
appends its text field (defaulting to the empty string), a tool_results
item folds over its tool results, anything else is skipped.  `none`
models a raised exception: a non-object item, a non-string text value
(the final newline join would raise TypeError on it), or a non-array
tool_results value (Python raises when iterating it or when accessing
the elements; the vacuous iteration over an empty string or dict is
approximated as a failure too). -/
def processItem (acc : ParseAcc) (item : JsonValue) : Option ParseAcc :=
  match item with
  | .obj kvs =>
    let itemType := (JsonValue.lookup? kvs "type").getD (.str "")
    if itemType.isStr "text" then
      match (JsonValue.lookup? kvs "text").getD (.str "") with
      | .str s => some (ParseAcc.mk (acc.answer_parts ++ [s]) acc.sql_query acc.data)
      | _ => none
    else if itemType.isStr "tool_results" then
      match (JsonValue.lookup? kvs "tool_results").getD (.arr []) with
      | .arr results => List.foldlM processToolResult acc results
      | _ => none
    else some acc
  | _ => none

/-- One message (snowflake_client.py `_parse_response` outer loop): only
messages whose role equals "assistant" contribute; their content list is
folded with `processItem`. -/
def processMessage (acc : ParseAcc) (message : JsonValue) : Option ParseAcc :=
  match message with
  | .obj kvs =>
    if ((JsonValue.lookup? kvs "role").getD .null).isStr "assistant" then
      match (JsonValue.lookup? kvs "content").getD (.arr []) with
      | .arr content => List.foldlM processItem acc content
      | _ => none
    else some acc
  | _ => none

/-- Description of the parse-error result; the source interpolates the
text of the caught exception, which the claims never inspect, so it is
abbreviated here. -/
def parseFailureDescription : String :=
  "Failed to parse response: TypeError"

/-- Response parsing (snowflake_client.py `_parse_response`): read the
top-level "messages" array (defaulting to empty), fold the assistant
messages, then join the text parts with newlines and strip.  Any step
that would raise in Python yields the parse-error result. -/
def CortexClient._parse_response (response : JsonValue) : QueryResult :=
  let core : Option ParseAcc :=
    match response with
    | .obj kvs =>
      match (JsonValue.lookup? kvs "messages").getD (.arr []) with
      | .arr messages => List.foldlM processMessage (ParseAcc.mk [] none []) messages
      | _ => none
    | _ => none
  match core with
  | some acc =>
    QueryResult.mk (pyStrip (String.intercalate "\n" acc.answer_parts)) acc.sql_query acc.data none
  | none => QueryResult.mk "" none [] (some parseFailureDescription)

/-- Outcome of the httpx POST: either the request raised (network error or
timeout, carrying the exception text), or a response arrived with a
status code, a body text, and the outcome of decoding the body as JSON
(`Except.error` models a raised decode exception with its text). -/
inductive HttpOutcome where
  | failure : String → HttpOutcome
  | response : Nat → String → Except String JsonValue → HttpOutcome

/-- The outbound agent request as the client assembles it: URL, the
Authorization header value, and the JSON body. -/
structure AgentRequest where
  url : String
  authorization : String
  body : JsonValue
deriving Repr

/-- Agent query (snowflake_client.py `query`): default the thread id to
the freshly generated identifier `genId` (modelling `str(uuid4())`),
build the request body, obtain the bearer token, and send.  A non-2xx
status maps to the "API error: status - body" result, any other raised
step (token acquisition, network, JSON decoding) maps to a result
carrying the text of that failure, and a 2xx body is handed to
`_parse_response`.  The third component is the request that was sent
(`none` when the token step failed before the POST).  The function is
total: no outcome raises to the caller. -/
def CortexClient.query (c : CortexClient) (env : WarehouseEnv) (genId : String)
    (http : HttpOutcome) (question : String) (thread_id : Option String) :
    QueryResult × CortexClient × Option AgentRequest :=
  let tid := thread_id.getD genId
  let body := request_body tid question
  match c._get_session_token env with
  | (.error e, c2) => (QueryResult.mk "" none [] (some e), c2, none)
  | (.ok token, c2) =>
    let req := AgentRequest.mk c2._build_agent_url ("Bearer " ++ token) body
    match http with
    | .failure e => (QueryResult.mk "" none [] (some e), c2, some req)
    | .response status text jsonResult =>
      if 200 ≤ status ∧ status < 300 then
        match jsonResult with
        | .error e => (QueryResult.mk "" none [] (some e), c2, some req)
        | .ok j => (CortexClient._parse_response j, c2, some req)
      else
        (QueryResult.mk "" none [] (some ("API error: " ++ toString status ++ " - " ++ text)),
         c2, some req)

/-- Effect of releasing a warehouse connection handle. -/
inductive CloseEffect where
  | closeConn : Conn → CloseEffect
deriving Repr, DecidableEq

/-- Client shutdown (snowflake_client.py `close`): when a connection
handle is present, close it and clear both the handle and the cached
token; otherwise do nothing. -/
def CortexClient.close (c : CortexClient) : CortexClient × List CloseEffect :=
  match c._connection with
  | none => (c, [])
  | some conn =>
    (CortexClient.mk c.snowflake_settings c.cortex_settings none none,
     [CloseEffect.closeConn conn])

/-- Block text limit (handlers.py `MAX_BLOCK_TEXT_LENGTH`). -/
def MAX_BLOCK_TEXT_LENGTH : Nat := 2900

/-- History window (handlers.py `MAX_HISTORY_MESSAGES`). -/
def MAX_HISTORY_MESSAGES : Nat := 20

/-- Slack message blocks emitted by the handlers: a mrkdwn section, a
divider, and a context block holding one mrkdwn element. -/
inductive Block where
  | sectionBlock : String → Block
  | dividerBlock : Block
  | contextBlock : String → Block
deriving Repr, DecidableEq

/-- Python truthiness of an optional string field: present and
non-empty. -/
def truthyOptStr : Option String → Bool
  | none => false
  | some s => s ≠ ""

/-- The trailing divider and context blocks of a formatted response
(handlers.py `format_response`): notes announcing an attached SQL file
and an attached results file, emitted after a divider when at least one
is present. -/
def fileNoteBlocks (result : QueryResult) : List Block :=
  let file_notes : List String :=
    (if truthyOptStr result.sql then [":mag: SQL query attached"] else []) ++
    (if result.data.isEmpty then [] else
      [":bar_chart: Results attached (" ++ toString result.data.length ++ " rows)"])
  if file_notes.isEmpty then []
  else [Block.dividerBlock, Block.contextBlock (String.intercalate " | " file_notes)]

/-- Response formatting (handlers.py `format_response`): a truthy error
short-circuits to a single error section; otherwise a non-empty answer is
emitted as a section, sliced to `MAX_BLOCK_TEXT_LENGTH` code points with
"..." appended when longer, followed by the file-note blocks. -/
def format_response (result : QueryResult) : List Block :=
  if truthyOptStr result.error then
    [Block.sectionBlock (":x: *Error*\n" ++ result.error.getD "")]
  else
    (if result.answer ≠ "" then
      [Block.sectionBlock
        (if MAX_BLOCK_TEXT_LENGTH < result.answer.length then
          pySlice result.answer MAX_BLOCK_TEXT_LENGTH ++ "..."
        else result.answer)]
    else []) ++ fileNoteBlocks result

/-- Question extraction (handlers.py `extract_question`): remove every
occurrence of the literal mention token and strip the remainder.  The
source performs the removal with `re.sub` on the escaped-free literal
pattern; since the claims only exercise literal bot ids, plain
substring replacement is the faithful model, and the strip is the Lean
`String.trim` because no theorem evaluates it on a concrete mention. -/
def extract_question (text : String) (bot_user_id : String) : String :=
  (text.replace ("<@" ++ bot_user_id ++ ">") "").trim

/-- History read (handlers.py `get_history`): the last
`MAX_HISTORY_MESSAGES` entries of the per-thread history list; the
process-wide `thread_history` defaultdict is passed in as a function. -/
def get_history (thread_history : String → List JsonValue) (thread_ts : String) :
    List JsonValue :=
  let l := thread_history thread_ts
  l.drop (l.length - MAX_HISTORY_MESSAGES)

/-- Plain-text fallback of the final reply (handlers.py, the
`fallback_text` expression shared verbatim by `handle_mention` and
`handle_message`): Error-prefixed error text on failure, else the answer,
or the placeholder when the answer is empty. -/
def fallback_text (result : QueryResult) : String :=
  match result.error with
  | some e => "Error: " ++ e
  | none => if result.answer = "" then "No response from agent." else result.answer

/-- Parameter names of `CortexClient.query` as defined in
snowflake_client.py: only `question` and `thread_id` besides `self`. -/
def queryParams : List String := ["question", "thread_id"]

/-- First keyword argument of a Python call that the callee parameter
list does not accept; such a call raises TypeError at the call site. -/
def unexpectedKeyword (params kwargs : List String) : Option String :=
  kwargs.find? (fun k => !(params.contains k))

/-- Text of the TypeError raised when `CortexClient.query` is called with
an unexpected keyword argument (the Python message additionally quotes
the argument name). -/
def typeErrorMessage (k : String) : String :=
  "CortexClient.query() got an unexpected keyword argument " ++ k

/-- Async query wrapper (handlers.py `run_cortex_query`): it calls
`cortex_client.query(question, thread_id=thread_id, history=history)`,
supplying the keyword arguments `thread_id` and `history`; binding them
against `queryParams` raises TypeError, which the except block of the wrapper
converts to an error `QueryResult`.  Only when the binding succeeds would
the `query` method of the client run. -/
def run_cortex_query (c : CortexClient) (env : WarehouseEnv) (genId : String)
    (http : HttpOutcome) (question : String) (thread_id : Option String)
    (history : Option (List JsonValue)) :
    QueryResult × CortexClient × Option AgentRequest :=
  match unexpectedKeyword queryParams ["thread_id", "history"] with
  | some k => (QueryResult.mk "" none [] (some (typeErrorMessage k)), c, none)
  | none => c.query env genId http question thread_id

/-- Sync bridge (handlers.py `run_query_sync`): drives `run_cortex_query`
to completion on an event loop; both the running-loop and the
`asyncio.run` path return the result of that coroutine, so the bridge is the
identity on it. -/
def run_query_sync (c : CortexClient) (env : WarehouseEnv) (genId : String)
    (http : HttpOutcome) (question : String) (thread_id : Option String)
    (history : Option (List JsonValue)) :
    QueryResult × CortexClient × Option AgentRequest :=
  run_cortex_query c env genId http question thread_id history

/-- One outbound `say` call of a handler: the plain-text fallback, the
optional block payload, and the thread timestamp it is addressed to. -/
structure SayCall where
  text : String
  blocks : Option (List Block)
  thread_ts : String
deriving Repr, DecidableEq

/-- An inbound mention event with the fields handle_mention reads. -/
structure MentionEvent where
  user : String
  text : String
  channel : String
  ts : String
  thread_ts : Option String
deriving Repr, DecidableEq

/-- Thread anchor selection (handlers.py):
`event.get("thread_ts") or event.get("ts")` with Python truthiness, so an
absent or empty thread_ts falls back to the own timestamp of the event. -/
def eventThreadTs (e : MentionEvent) : String :=
  match e.thread_ts with
  | some t => if t = "" then e.ts else t
  | none => e.ts

/-- Mention handler (handlers.py `handle_mention`): extract the question;
an empty residue draws the static prompt; otherwise post the analyzing
acknowledgment, run the query synchronously with the thread history, and
post the formatted reply with its plain-text fallback.  The result lists
the `say` calls in order and returns the updated client state and the
outbound agent request, if any was sent.  The trailing file-upload and
history-store steps of the source only feed state no claim observes and
are outside the model. -/
def handle_mention (c : CortexClient) (env : WarehouseEnv) (genId : String)
    (http : HttpOutcome) (thread_history : String → List JsonValue)
    (event : MentionEvent) (bot_user_id : String) :
    List SayCall × CortexClient × Option AgentRequest :=
  let thread_ts := eventThreadTs event
  let question := extract_question event.text bot_user_id
  if question = "" then
    ([SayCall.mk "Please ask me a question about your data!" none thread_ts], c, none)
  else
    let history := get_history thread_history thread_ts
    let out := run_query_sync c env genId http question (some thread_ts) (some history)
    let result := out.1
    ([SayCall.mk ":hourglass_flowing_sand: Analyzing your question..." none thread_ts,
      SayCall.mk (fallback_text result) (some (format_response result)) thread_ts],
     out.2.1, out.2.2)

/-- Sample settings used by concrete witnesses and counterexamples. -/
def sampleSnowflakeSettings : SnowflakeSettings :=
  SnowflakeSettings.mk "acct" "user" "pw" "pat-value" "wh" "db" "sch"

/-- Sample agent settings used by concrete witnesses and counterexamples. -/
def sampleCortexSettings : CortexSettings :=
  CortexSettings.mk "agent"

/-- Helper: once the session token step succeeds, `query` sends exactly one
request, whose URL is the built agent URL, whose Authorization header is
the bearer-prefixed token, and whose body is `request_body`. -/
theorem query_request_of_token (c : CortexClient) (env : WarehouseEnv) (genId : String)
    (http : HttpOutcome) (q : String) (tid : Option String) (tok : String)
    (c2 : CortexClient) (h : c._get_session_token env = (.ok tok, c2)) :
    (c.query env genId http q tid).2.2 =
      some (AgentRequest.mk c2._build_agent_url ("Bearer " ++ tok)
        (request_body (tid.getD genId) q)) := by
  unfold CortexClient.query
  rw [h]
  cases http with
  | failure e => rfl
  | response status text jsonResult =>
    by_cases hs : 200 ≤ status ∧ status < 300
    · cases jsonResult with
      | error e => simp [hs]
      | ok j => simp [hs]
    · simp [hs]

/-- C1: the claim states that every mention or direct-message event with a
non-empty question leads the handler to invoke the client query
operation for that question with no history supplied.  In the source,
`run_cortex_query` (reached from both handlers via `run_query_sync`)
always supplies the keyword argument `history` to `CortexClient.query`,
whose parameter list does not accept it, so every call raises TypeError,
is caught, and becomes an error result: the query operation is never
invoked and no agent request is ever sent. -/
theorem run_query_sync_always_typeerrors (c : CortexClient) (env : WarehouseEnv)
    (genId : String) (http : HttpOutcome) (question : String)
    (thread_id : Option String) (history : Option (List JsonValue)) :
    run_query_sync c env genId http question thread_id history =
      (QueryResult.mk "" none [] (some (typeErrorMessage "history")), c, none) := rfl

/-- C2 counterexample: the body built by `query` for thread id "tid-1" and
question "show sales" is not the body the claim describes; it does carry
the generated thread identifier and carries no "stream" key. -/
theorem request_body_is_not_spec_body :
    request_body "tid-1" "show sales" ≠ spec_request_body [] "show sales" ∧
    bodyHasKey (request_body "tid-1" "show sales") "thread_id" = true ∧
    bodyHasKey (request_body "tid-1" "show sales") "stream" = false := by
  refine ⟨fun h => ?_, rfl, rfl⟩
  simp [request_body, spec_request_body, userMessage] at h

/-- C2 amended: whenever a request is sent (here: the token is cached, so
the token step succeeds), its body is exactly thread_id (the supplied one
or the generated identifier), parent_message_id "0" and the single-turn
message list, with no "stream" key and with the thread identifier
included. -/
theorem query_request_body_shape (sf : SnowflakeSettings) (cx : CortexSettings)
    (conn : Option Conn) (t : String) (env : WarehouseEnv) (genId : String)
    (http : HttpOutcome) (q : String) (tid : Option String) :
    ∃ req : AgentRequest,
      (CortexClient.query (CortexClient.mk sf cx conn (some t)) env genId http q tid).2.2 =
        some req ∧
      req.body = request_body (tid.getD genId) q ∧
      req.body = JsonValue.obj [("thread_id", .str (tid.getD genId)),
        ("parent_message_id", .str "0"), ("messages", .arr [userMessage q])] ∧
      bodyHasKey req.body "stream" = false ∧
      bodyHasKey req.body "thread_id" = true :=
  ⟨AgentRequest.mk (CortexClient.mk sf cx conn (some t))._build_agent_url
      ("Bearer " ++ t) (request_body (tid.getD genId) q),
   query_request_of_token _ _ _ _ _ _ _ _ rfl, rfl, rfl, rfl, rfl⟩

/-- C9: close releases an open connection handle and clears both the
cached connection and the cached token; with no connection it is a no-op
that leaves the state unchanged, and a second consecutive close is always
a no-op. -/
theorem close_closes_and_is_idempotent (c : CortexClient) (conn : Conn) :
    (c._connection = some conn →
      c.close = (CortexClient.mk c.snowflake_settings c.cortex_settings none none,
        [CloseEffect.closeConn conn])) ∧
    (c._connection = none → c.close = (c, [])) ∧
    c.close.1.close = (c.close.1, []) := by
  refine ⟨?_, ?_, ?_⟩
  · intro h
    unfold CortexClient.close
    rw [h]
  · intro h
    unfold CortexClient.close
    rw [h]
  · cases hc : c._connection with
    | none =>
      have h1 : c.close = (c, []) := by
        unfold CortexClient.close
        rw [hc]
      rw [h1]
      exact h1
    | some a =>
      have h1 : c.close =
          (CortexClient.mk c.snowflake_settings c.cortex_settings none none,
           [CloseEffect.closeConn a]) := by
        unfold CortexClient.close
        rw [hc]
      rw [h1]
      rfl

/-- C9 witness: closing a client holding an open connection and a cached
token clears both and emits the close effect for that handle. -/
theorem close_closes_and_is_idempotent_witness :
    (CortexClient.mk sampleSnowflakeSettings sampleCortexSettings
        (some (Conn.mk 0 false)) (some "tok")).close =
      (CortexClient.mk sampleSnowflakeSettings sampleCortexSettings none none,
       [CloseEffect.closeConn (Conn.mk 0 false)]) :=
  (close_closes_and_is_idempotent _ (Conn.mk 0 false)).1 rfl

/-- C10: an error-free result with empty answer, absent sql and empty data
renders to no blocks at all. -/
theorem format_response_empty_success (r : QueryResult) (he : r.error = none)
    (ha : r.answer = "") (hs : r.sql = none) (hd : r.data = []) :
    format_response r = [] := by
  obtain ⟨a, s, d, e⟩ := r
  subst he ha hs hd
  rfl

/-- C10 witness: the all-empty successful result renders to no blocks. -/
theorem format_response_empty_success_witness :
    format_response (QueryResult.mk "" none [] none) = [] :=
  format_response_empty_success _ rfl rfl rfl rfl

/-- C8 counterexample: a successful result with empty answer is rendered
with fallback "No response from agent.", which differs from the answer,
refuting the claim that the fallback equals the answer whenever success
holds. -/
theorem fallback_text_empty_answer_counterexample :
    (QueryResult.mk "" none [] none).success = true ∧
    fallback_text (QueryResult.mk "" none [] none) = "No response from agent." ∧
    fallback_text (QueryResult.mk "" none [] none) ≠ (QueryResult.mk "" none [] none).answer :=
  ⟨rfl, rfl, by decide⟩

/-- C8 amended: the fallback expression shared by both handlers equals the
answer when success holds and the answer is non-empty, the placeholder
"No response from agent." when success holds and the answer is empty, and
"Error: " followed by the error text when success does not hold. -/
theorem fallback_text_cases (r : QueryResult) (e : String) :
    (r.error = none → r.answer ≠ "" → fallback_text r = r.answer) ∧
    (r.error = none → r.answer = "" → fallback_text r = "No response from agent.") ∧
    (r.error = some e → fallback_text r = "Error: " ++ e) := by
  refine ⟨fun h1 h2 => ?_, fun h1 h2 => ?_, fun h1 => ?_⟩
  · simp [fallback_text, h1, h2]
  · simp [fallback_text, h1, h2]
  · simp [fallback_text, h1]

/-- C8 witness: a successful result with non-empty answer has the answer
itself as fallback. -/
theorem fallback_text_cases_witness :
    fallback_text (QueryResult.mk "hello" none [] none) = "hello" :=
  (fallback_text_cases (QueryResult.mk "hello" none [] none) "x").1 rfl (by decide)

/-- C6 counterexample: a result whose error field is present but empty is
not rendered as an error block (Python truthiness skips the empty
string); its answer is rendered instead, refuting the claim for results
whose error is present but empty. -/
theorem format_response_empty_error_counterexample :
    (QueryResult.mk "hi" none [] (some "")).error.isSome = true ∧
    format_response (QueryResult.mk "hi" none [] (some "")) = [Block.sectionBlock "hi"] ∧
    ([Block.sectionBlock "hi"] : List Block) ≠
      [Block.sectionBlock (":x: *Error*\n" ++ "")] :=
  ⟨rfl, rfl, by decide⟩

/-- C6 amended: for every result whose error is present and non-empty,
format_response returns exactly the single error section, regardless of
the answer, sql and data fields. -/
theorem format_response_error_block (r : QueryResult) (e : String)
    (he : r.error = some e) (hne : e ≠ "") :
    format_response r = [Block.sectionBlock (":x: *Error*\n" ++ e)] := by
  simp [format_response, truthyOptStr, he, hne]

/-- C6 witness: a result carrying answer, sql and a non-empty error
renders as the single error block. -/
theorem format_response_error_block_witness :
    format_response (QueryResult.mk "partial" (some "SELECT 1") [] (some "boom")) =
      [Block.sectionBlock (":x: *Error*\n" ++ "boom")] :=
  format_response_error_block _ "boom" rfl (by decide)

/-- C3 counterexample: for a fresh client whose settings carry the
personal access token "pat-value", with the warehouse returning the
generated JWT "jwt-token", the Authorization header presented by `query`
is the bearer-prefixed generated token and differs from the
bearer-prefixed personal-access-credential field. -/
theorem bearer_token_differs_from_pat :
    Option.map AgentRequest.authorization
        ((CortexClient.mk sampleSnowflakeSettings sampleCortexSettings none none).query
          (WarehouseEnv.mk (.ok (Conn.mk 0 false)) (some "jwt-token")) "gid"
          (HttpOutcome.failure "net down") "q" none).2.2 = some "Bearer jwt-token" ∧
    sampleSnowflakeSettings.pat = "pat-value" ∧
    ("Bearer jwt-token" : String) ≠ "Bearer " ++ sampleSnowflakeSettings.pat :=
  ⟨rfl, rfl, by decide⟩

/-- C3 amended: the bearer token presented in the Authorization header is
the session JWT fetched from the warehouse by running
SELECT SYSTEM$GENERATE_JWT_TOKEN() over the lazily opened connection (and
then cached); the personal-access-credential settings field is
not consulted. -/
theorem bearer_token_is_warehouse_jwt (sf : SnowflakeSettings) (cx : CortexSettings)
    (env : WarehouseEnv) (genId : String) (http : HttpOutcome) (q : String)
    (tid : Option String) (conn : Conn) (t : String)
    (hconn : env.connectResult = .ok conn) (hjwt : env.jwtRow = some t) :
    ∃ req : AgentRequest,
      (CortexClient.query (CortexClient.mk sf cx none none) env genId http q tid).2.2 =
        some req ∧ req.authorization = "Bearer " ++ t := by
  have h : (CortexClient.mk sf cx none none)._get_session_token env =
      (.ok t, CortexClient.mk sf cx (some conn) (some t)) := by
    unfold CortexClient._get_session_token CortexClient._get_connection
    rw [hconn, hjwt]
  exact ⟨_, query_request_of_token _ _ _ _ _ _ _ _ h, rfl⟩

/-- C3 witness: at the concrete sample settings and a warehouse producing
the JWT "jwt-token", the request is sent with that bearer token. -/
theorem bearer_token_is_warehouse_jwt_witness :
    ∃ req : AgentRequest,
      (CortexClient.query (CortexClient.mk sampleSnowflakeSettings sampleCortexSettings none none)
          (WarehouseEnv.mk (.ok (Conn.mk 0 false)) (some "jwt-token")) "gid"
          (HttpOutcome.failure "net down") "q" none).2.2 = some req ∧
      req.authorization = "Bearer " ++ "jwt-token" :=
  bearer_token_is_warehouse_jwt sampleSnowflakeSettings sampleCortexSettings
    (WarehouseEnv.mk (.ok (Conn.mk 0 false)) (some "jwt-token")) "gid"
    (HttpOutcome.failure "net down") "q" none (Conn.mk 0 false) "jwt-token" rfl rfl

/-- A text content item of the agent response, as the parser expects it. -/
def textItem (t : String) : JsonValue :=
  .obj [("type", .str "text"), ("text", .str t)]

/-- Helper: folding the item step of the parser over a list of text items
appends exactly their texts to the accumulated answer parts. -/
theorem foldlM_processItem_textItems (texts : List String) (acc : ParseAcc) :
    List.foldlM processItem acc (texts.map textItem) =
      some (ParseAcc.mk (acc.answer_parts ++ texts) acc.sql_query acc.data) := by
  induction texts generalizing acc with
  | nil => cases acc; simp [List.foldlM]
  | cons t ts ih =>
    have hstep : processItem acc (textItem t) =
        some (ParseAcc.mk (acc.answer_parts ++ [t]) acc.sql_query acc.data) := by
      simp [processItem, textItem, JsonValue.lookup?, JsonValue.isStr]
    simp [List.foldlM, hstep, ih]

/-- C4 counterexample: a response whose top level is a content array (as
the claim describes) is ignored by the parser, which reads only the
top-level messages array: the answer comes out empty, not
"Found 2 users.". -/
theorem parse_response_top_level_content_ignored :
    CortexClient._parse_response
        (.obj [("content", .arr [textItem "Found 2 users."])]) =
      QueryResult.mk "" none [] none ∧
    ("" : String) ≠ "Found 2 users." :=
  ⟨rfl, by decide⟩

/-- C4 amended: the parser reads the top-level messages array; for a body
holding one assistant message whose content is a list of text items, the
text fields are concatenated in order with newline separators and
stripped of surrounding whitespace to form the answer, with sql absent
and data empty.  In particular the single item "Found 2 users." yields
that answer. -/
theorem parse_response_concatenates_texts (texts : List String) :
    CortexClient._parse_response
        (.obj [("messages",
          .arr [.obj [("role", .str "assistant"),
                      ("content", .arr (texts.map textItem))]])]) =
      QueryResult.mk (pyStrip (String.intercalate "\n" texts)) none [] none := by
  have hmsg : processMessage (ParseAcc.mk [] none [])
      (.obj [("role", .str "assistant"), ("content", .arr (texts.map textItem))]) =
      some (ParseAcc.mk texts none []) := by
    simp [processMessage, JsonValue.lookup?, JsonValue.isStr, foldlM_processItem_textItems]
  simp [CortexClient._parse_response, JsonValue.lookup?, List.foldlM, hmsg]

/-- C5: query never raises: a token-step failure, a network or decode
failure, and a non-2xx status each map to an error result carrying the
prescribed description with an empty answer, and a 2xx body is handed to
the parser; exactly one request is attempted (no retries, visible in the
single HttpOutcome consumed). -/
theorem query_error_handling (c : CortexClient) (env : WarehouseEnv) (genId : String)
    (q : String) (tid : Option String) :
    (∀ e c2, c._get_session_token env = (.error e, c2) →
      ∀ http, (c.query env genId http q tid).1 = QueryResult.mk "" none [] (some e)) ∧
    (∀ tok c2, c._get_session_token env = (.ok tok, c2) →
      (∀ e, (c.query env genId (.failure e) q tid).1 = QueryResult.mk "" none [] (some e)) ∧
      (∀ status text jsonResult, ¬ (200 ≤ status ∧ status < 300) →
        (c.query env genId (.response status text jsonResult) q tid).1 =
          QueryResult.mk "" none []
            (some ("API error: " ++ toString status ++ " - " ++ text))) ∧
      (∀ status text e, 200 ≤ status ∧ status < 300 →
        (c.query env genId (.response status text (.error e)) q tid).1 =
          QueryResult.mk "" none [] (some e)) ∧
      (∀ status text j, 200 ≤ status ∧ status < 300 →
        (c.query env genId (.response status text (.ok j)) q tid).1 =
          CortexClient._parse_response j)) := by
  constructor
  · intro e c2 h http
    unfold CortexClient.query
    rw [h]
  · intro tok c2 h
    refine ⟨?_, ?_, ?_, ?_⟩
    · intro e
      unfold CortexClient.query
      rw [h]
    · intro status text jsonResult hs
      unfold CortexClient.query
      rw [h]
      simp [hs]
    · intro status text e hs
      unfold CortexClient.query
      rw [h]
      simp [hs]
    · intro status text j hs
      unfold CortexClient.query
      rw [h]
      simp [hs]

/-- C5 witness: with a cached token, a 404 response with body "Not Found"
yields the error result with the API error description and empty
answer. -/
theorem query_error_handling_witness :
    ((CortexClient.mk sampleSnowflakeSettings sampleCortexSettings none (some "tok")).query
        (WarehouseEnv.mk (.error "down") none) "gid"
        (HttpOutcome.response 404 "Not Found" (.ok (JsonValue.obj []))) "q" none).1 =
      QueryResult.mk "" none [] (some ("API error: " ++ toString 404 ++ " - " ++ "Not Found")) :=
  ((query_error_handling
      (CortexClient.mk sampleSnowflakeSettings sampleCortexSettings none (some "tok"))
      (WarehouseEnv.mk (.error "down") none) "gid" "q" none).2 "tok"
      (CortexClient.mk sampleSnowflakeSettings sampleCortexSettings none (some "tok"))
      rfl).2.1 404 "Not Found" (.ok (JsonValue.obj [])) (by decide)

/-- Helper: with no error and an answer longer than the block limit, the
formatted response starts with the sliced answer section. -/
theorem format_response_long_answer (r : QueryResult) (he : r.error = none)
    (hlt : MAX_BLOCK_TEXT_LENGTH < r.answer.length) :
    format_response r =
      Block.sectionBlock (pySlice r.answer MAX_BLOCK_TEXT_LENGTH ++ "...") ::
        fileNoteBlocks r := by
  have ha : r.answer ≠ "" := by
    intro h0
    rw [h0] at hlt
    exact absurd hlt (by decide)
  simp [format_response, truthyOptStr, he, ha, hlt]

/-- Helper: the sliced answer with the appended ellipsis has exactly the
block limit plus three code points whenever the answer exceeds the
limit. -/
theorem pySlice_ellipsis_length (s : String) (h : MAX_BLOCK_TEXT_LENGTH < s.length) :
    (pySlice s MAX_BLOCK_TEXT_LENGTH ++ "...").length = MAX_BLOCK_TEXT_LENGTH + 3 := by
  show (s.data.take MAX_BLOCK_TEXT_LENGTH ++ "...".data).length = MAX_BLOCK_TEXT_LENGTH + 3
  have h3 : ("...".data).length = 3 := rfl
  have h2 : MAX_BLOCK_TEXT_LENGTH ≤ s.data.length := Nat.le_of_lt h
  rw [List.length_append, List.length_take, h3]
  omega

/-- C7 counterexample: an answer of 2,901 characters has at most 3,000
characters, yet it is not emitted unmodified: the source truncates at
2,900 characters, not 3,000. -/
theorem truncation_boundary_counterexample :
    (String.mk (List.replicate 2901 'x')).length ≤ 3000 ∧
    format_response
        (QueryResult.mk (String.mk (List.replicate 2901 'x')) none [] none) ≠
      [Block.sectionBlock (String.mk (List.replicate 2901 'x'))] := by
  have hlen : (String.mk (List.replicate 2901 'x')).length = 2901 := by
    show (List.replicate 2901 'x').length = 2901
    rw [List.length_replicate]
  constructor
  · rw [hlen]
    omega
  · intro h
    have hlt : MAX_BLOCK_TEXT_LENGTH <
        (String.mk (List.replicate 2901 'x')).length := by
      rw [hlen]
      decide
    rw [format_response_long_answer _ rfl hlt] at h
    have ht := Block.sectionBlock.inj (List.cons.inj h).1
    have hl := congrArg String.length ht
    rw [pySlice_ellipsis_length _ hlt, hlen] at hl
    exact absurd hl (by decide)

/-- C7 amended: an error-free result with non-empty answer is emitted as a
section in first position: unmodified when the answer has at most 2,900
characters, and sliced to 2,900 characters with "..." appended (2,903
characters in total, under 5,000) when it is longer. -/
theorem format_response_truncates_answer (r : QueryResult) (he : r.error = none)
    (ha : r.answer ≠ "") :
    (r.answer.length ≤ MAX_BLOCK_TEXT_LENGTH →
      format_response r = Block.sectionBlock r.answer :: fileNoteBlocks r) ∧
    (MAX_BLOCK_TEXT_LENGTH < r.answer.length →
      format_response r =
        Block.sectionBlock (pySlice r.answer MAX_BLOCK_TEXT_LENGTH ++ "...") ::
          fileNoteBlocks r ∧
      (pySlice r.answer MAX_BLOCK_TEXT_LENGTH ++ "...").length =
        MAX_BLOCK_TEXT_LENGTH + 3) := by
  constructor
  · intro hle
    simp [format_response, truthyOptStr, he, ha, Nat.not_lt.mpr hle]
  · intro hlt
    exact ⟨format_response_long_answer r he hlt, pySlice_ellipsis_length r.answer hlt⟩

/-- C7 witness: a 5,000-character answer with no error renders as a single
section of 2,903 characters, the sliced answer with the ellipsis
appended. -/
theorem format_response_truncates_answer_witness :
    format_response
        (QueryResult.mk (String.mk (List.replicate 5000 'x')) none [] none) =
      [Block.sectionBlock
        (pySlice (String.mk (List.replicate 5000 'x')) MAX_BLOCK_TEXT_LENGTH ++ "...")] ∧
    (pySlice (String.mk (List.replicate 5000 'x')) MAX_BLOCK_TEXT_LENGTH ++ "...").length =
      MAX_BLOCK_TEXT_LENGTH + 3 :=
  (format_response_truncates_answer
      (QueryResult.mk (String.mk (List.replicate 5000 'x')) none [] none)
      rfl (by decide)).2
    (by
      show MAX_BLOCK_TEXT_LENGTH < (List.replicate 5000 'x').length
      rw [List.length_replicate]
      decide)
